import Mathlib

/-!
Verification of the iCloudBridge Python client (`icloudbridge.py`) against its
natural-language specification.  The definitions below are a shallow embedding
of the relevant parts of the source file: date parsing/formatting, the JSON
to record mappers, the auto-pagination loop, the image polling loop, and the
per-endpoint HTTP error mapping.  Theorems at the end of the file settle the
specification claims.
-/

/-- Model of Python `datetime.datetime`: calendar fields plus an optional
fixed-offset timezone in minutes east of UTC (`none` models a naive datetime).
This is the single canonical in-memory temporal type every wire date is
parsed into. -/
structure Datetime where
  year : Nat
  month : Nat
  day : Nat
  hour : Nat
  minute : Nat
  second : Nat
  microsecond : Nat
  tzOffsetMinutes : Option Int
deriving DecidableEq, Repr

/-- Gregorian leap-year rule (as used by Python's `datetime`). -/
def isLeapYear (y : Nat) : Bool :=
  (y % 4 == 0 && y % 100 != 0) || y % 400 == 0

/-- Number of days in a month (as validated by Python's `datetime` constructor). -/
def daysInMonth (y m : Nat) : Nat :=
  if m = 2 then (if isLeapYear y then 29 else 28)
  else if m = 4 ∨ m = 6 ∨ m = 9 ∨ m = 11 then 30
  else 31

/-- Checked constructor: models the range validation Python's `datetime`
constructor performs (`MINYEAR = 1`, `MAXYEAR = 9999`, calendar-valid day,
clock fields in range, microseconds below one million, utc offset strictly
between -24h and +24h). Returns `none` where Python raises `ValueError`. -/
def mkDatetime (y mo d h mi s micro : Nat) (tz : Option Int) : Option Datetime :=
  if 1 ≤ y ∧ y ≤ 9999 ∧ 1 ≤ mo ∧ mo ≤ 12 ∧ 1 ≤ d ∧ d ≤ daysInMonth y mo ∧
      h ≤ 23 ∧ mi ≤ 59 ∧ s ≤ 59 ∧ micro ≤ 999999 ∧ (tz.getD 0).natAbs < 1440 then
    some ⟨y, mo, d, h, mi, s, micro, tz⟩
  else none

/-- Value of a decimal digit character, `none` for a non-digit. -/
def digitVal (c : Char) : Option Nat :=
  if c.isDigit then some (c.toNat - 48) else none

/-- Two-digit decimal field. -/
def num2 (a b : Char) : Option Nat := do
  let x ← digitVal a
  let y ← digitVal b
  pure (x * 10 + y)

/-- Four-digit decimal field. -/
def num4 (a b c d : Char) : Option Nat := do
  let x ← digitVal a
  let y ← digitVal b
  let z ← digitVal c
  let w ← digitVal d
  pure (x * 1000 + y * 100 + z * 10 + w)

/-- Microsecond value of a fractional-second digit string: the first six
digits, right-padded with zeros (digits beyond six are truncated, as in
`datetime.fromisoformat`). -/
def fracMicro (ds : List Char) : Nat :=
  let six := ds.take 6
  (six.foldl (fun a c => a * 10 + (c.toNat - 48)) 0) * 10 ^ (6 - six.length)

/-- Magnitude of a `HH:MM` utc-offset suffix, in minutes; the suffix must
reach the end of the string. -/
def parseOffsetMag : List Char → Option Nat
  | [h1, h2, ':', m1, m2] => do
    let hh ← num2 h1 h2
    let mm ← num2 m1 m2
    if mm ≤ 59 ∧ hh * 60 + mm < 1440 then pure (hh * 60 + mm) else none
  | _ => none

/-- Optional timezone tail: empty means naive, `+HH:MM` / `-HH:MM` give a
fixed offset in minutes. -/
def parseTz : List Char → Option (Option Int)
  | [] => some none
  | '+' :: r => (parseOffsetMag r).map (fun n => some (n : Int))
  | '-' :: r => (parseOffsetMag r).map (fun n => some (-(n : Int)))
  | _ => none

/-- Optional fractional-second part (a dot followed by at least one digit)
followed by the optional timezone tail. -/
def parseFracTz : List Char → Option (Nat × Option Int)
  | '.' :: r =>
    let ds := r.takeWhile Char.isDigit
    let rest := r.dropWhile Char.isDigit
    if ds.isEmpty then none
    else (parseTz rest).map (fun tz => (fracMicro ds, tz))
  | r => (parseTz r).map (fun tz => (0, tz))

/-- Time-of-day part `HH[:MM[:SS[.ffffff]]]` with optional timezone tail. -/
def parseTimePart (y mo d : Nat) : List Char → Option Datetime
  | h1 :: h2 :: rest => do
    let h ← num2 h1 h2
    match rest with
    | ':' :: m1 :: m2 :: rest2 => do
      let mi ← num2 m1 m2
      match rest2 with
      | ':' :: s1 :: s2 :: rest3 => do
        let s ← num2 s1 s2
        let (micro, tz) ← parseFracTz rest3
        mkDatetime y mo d h mi s micro tz
      | r => do
        let tz ← parseTz r
        mkDatetime y mo d h mi 0 0 tz
    | r => do
      let tz ← parseTz r
      mkDatetime y mo d h 0 0 0 tz
  | _ => none

/-- Model of `datetime.fromisoformat` on the grammar the client depends on:
`YYYY-MM-DD[<sep>HH[:MM[:SS[.f+]]][+HH:MM|-HH:MM]]`.  (Offsets carrying a
seconds component are not modelled; the client never produces them.)
Returns `none` where Python raises `ValueError`. -/
def fromisoformat (str : String) : Option Datetime :=
  match str.data with
  | y1 :: y2 :: y3 :: y4 :: '-' :: mo1 :: mo2 :: '-' :: d1 :: d2 :: rest => do
    let y ← num4 y1 y2 y3 y4
    let mo ← num2 mo1 mo2
    let d ← num2 d1 d2
    match rest with
    | [] => mkDatetime y mo d 0 0 0 0 none
    | _sep :: timeRest => parseTimePart y mo d timeRest
  | _ => none

/-- One character of Python's `str.replace("Z", "+00:00")`. -/
def replaceZchar (c : Char) : List Char :=
  if c = 'Z' then "+00:00".data else [c]

/-- `date_str.replace("Z", "+00:00")`: every `Z` is replaced. -/
def replaceZ (s : String) : String :=
  ⟨s.data.flatMap replaceZchar⟩

/-- Model of `datetime.strptime(s, "%Y-%m-%dT%H:%M:%S")`: the exact 19
character naive shape. -/
def strptimeBare (str : String) : Option Datetime :=
  match str.data with
  | [y1, y2, y3, y4, '-', mo1, mo2, '-', d1, d2, 'T', h1, h2, ':', mi1, mi2, ':', s1, s2] => do
    let y ← num4 y1 y2 y3 y4
    let mo ← num2 mo1 mo2
    let d ← num2 d1 d2
    let h ← num2 h1 h2
    let mi ← num2 mi1 mi2
    let s ← num2 s1 s2
    mkDatetime y mo d h mi s 0 none
  | _ => none

/-- Embedding of `_parse_iso_date` (icloudbridge.py:583-593): replace `Z`
with `+00:00`, try `fromisoformat`, and on failure fall back to `strptime`
after stripping any fractional part. -/
def _parse_iso_date (date_str : String) : Option Datetime :=
  let ds := replaceZ date_str
  match fromisoformat ds with
  | some dt => some dt
  | none =>
    if ds.data.contains '.' then
      strptimeBare ⟨ds.data.takeWhile (fun c => c != '.')⟩
    else strptimeBare ds

/-- Zero-padded two-digit rendering (as `strftime` `%m`/`%d`/`%H`/`%M`/`%S`
produce for in-range field values). -/
def pad2 (n : Nat) : List Char :=
  [Nat.digitChar (n / 10), Nat.digitChar (n % 10)]

/-- Zero-padded four-digit rendering (as `strftime` `%Y` produces for years
up to 9999). -/
def pad4 (n : Nat) : List Char :=
  [Nat.digitChar (n / 1000), Nat.digitChar (n / 100 % 10),
   Nat.digitChar (n / 10 % 10), Nat.digitChar (n % 10)]

/-- Embedding of `_format_iso_date` (icloudbridge.py:596-598):
`dt.strftime("%Y-%m-%dT%H:%M:%SZ")`.  Note `strftime` with this format
string prints the datetime's own calendar fields — it performs no timezone
conversion, drops the microsecond field, and appends a literal `Z`. -/
def _format_iso_date (dt : Datetime) : String :=
  ⟨pad4 dt.year ++ '-' :: pad2 dt.month ++ '-' :: pad2 dt.day ++
   'T' :: pad2 dt.hour ++ ':' :: pad2 dt.minute ++ ':' :: pad2 dt.second ++ ['Z']⟩

/-- Days since 1970-01-01 of a civil date (standard civil-from-days inverse,
matching the proleptic Gregorian calendar `datetime` uses). -/
def daysFromCivil (y m d : Int) : Int :=
  let y2 := if m ≤ 2 then y - 1 else y
  let era := (if 0 ≤ y2 then y2 else y2 - 399) / 400
  let yoe := y2 - era * 400
  let mp := (m + 9) % 12
  let doy := (153 * mp + 2) / 5 + d - 1
  let doe := yoe * 365 + yoe / 4 - yoe / 100 + doy
  era * 146097 + doe - 719468

/-- The instant an aware datetime denotes, in microseconds since the epoch
(`none` for a naive datetime, which denotes no instant by itself). -/
def Datetime.instantMicros (dt : Datetime) : Option Int :=
  dt.tzOffsetMinutes.map (fun off =>
    (((daysFromCivil dt.year dt.month dt.day * 24 + dt.hour) * 60 + dt.minute - off) * 60
        + dt.second) * 1000000 + dt.microsecond)

/-- JSON values as decoded by `json.loads`. -/
inductive JsonVal where
  | null
  | bool (b : Bool)
  | num (n : Int)
  | str (s : String)
  | arr (xs : List JsonVal)
  | obj (fields : List (String × JsonVal))
deriving Repr

/-- Python `dict.get(k)`: the value under the first matching key, if any. -/
def jget (data : List (String × JsonVal)) (k : String) : Option JsonVal :=
  (data.find? (fun p => p.1 == k)).map (fun p => p.2)

/-- Python truthiness of `data.get(k)`: `None` (absent key), JSON `null`,
`False`, `0`, the empty string and empty containers are falsy. -/
def truthy : Option JsonVal → Bool
  | none => false
  | some .null => false
  | some (.bool b) => b
  | some (.num n) => n != 0
  | some (.str s) => s != ""
  | some (.arr xs) => !xs.isEmpty
  | some (.obj fs) => !fs.isEmpty

/-- A required string field (`data["k"]` used as a string). -/
def asStr : Option JsonVal → Option String
  | some (.str s) => some s
  | _ => none

/-- An optional string field fetched with `.get`: absent or `null` maps to
the unset value; a non-string value is outside the wire contract and maps
to failure. -/
def asStrOpt : Option JsonVal → Option (Option String)
  | none => some none
  | some .null => some none
  | some (.str s) => some (some s)
  | _ => none

/-- A required integer field. -/
def asInt : Option JsonVal → Option Int
  | some (.num n) => some n
  | _ => none

/-- An optional integer field fetched with `.get`. -/
def asIntOpt : Option JsonVal → Option (Option Int)
  | none => some none
  | some .null => some none
  | some (.num n) => some (some n)
  | _ => none

/-- A required boolean field. -/
def asBool : Option JsonVal → Option Bool
  | some (.bool b) => some b
  | _ => none

/-- The client handle (`iCloudBridge.__init__`): base url, health url and
optional bearer token. -/
structure Client where
  base_url : String
  health_url : String
  token : Option String
deriving Repr

/-- `ReminderList` dataclass. -/
structure ReminderList where
  id : String
  title : String
  color : Option String
  reminder_count : Int
  _client : Option Client
deriving Repr

/-- Embedding of `ReminderList.from_dict` (icloudbridge.py:69-77). Failure
(`none`) models a `KeyError`/type error escaping the mapper on JSON outside
the wire contract. -/
def ReminderList.from_dict (data : List (String × JsonVal)) (client : Option Client) :
    Option ReminderList := do
  let id ← asStr (jget data "id")
  let title ← asStr (jget data "title")
  let color ← asStrOpt (jget data "color")
  let reminder_count ← asInt (jget data "reminderCount")
  pure ⟨id, title, color, reminder_count, client⟩

/-- `Reminder` dataclass. -/
structure Reminder where
  id : String
  title : String
  notes : Option String
  is_completed : Bool
  priority : Int
  due_date : Option Datetime
  completion_date : Option Datetime
  list_id : String
  _client : Option Client
deriving Repr

/-- The repeated optional-date idiom of the mappers
(`x = None; if data.get(k): x = _parse_iso_date(data[k])`): a field that is
absent or falsy stays unset; a truthy value must be a parseable date
string. -/
def optDate (v : Option JsonVal) : Option (Option Datetime) :=
  if truthy v then do
    let s ← asStr v
    let t ← _parse_iso_date s
    pure (some t)
  else pure none

/-- Embedding of `Reminder.from_dict` (icloudbridge.py:178-198): the date
guards use Python truthiness of `data.get(...)`, so an absent, `null` or
empty-string date leaves the field unset. -/
def Reminder.from_dict (data : List (String × JsonVal)) (client : Option Client) :
    Option Reminder := do
  let due_date ← optDate (jget data "dueDate")
  let completion_date ← optDate (jget data "completionDate")
  let id ← asStr (jget data "id")
  let title ← asStr (jget data "title")
  let notes ← asStrOpt (jget data "notes")
  let is_completed ← asBool (jget data "isCompleted")
  let priority ← asInt (jget data "priority")
  let list_id ← asStr (jget data "listId")
  pure ⟨id, title, notes, is_completed, priority, due_date, completion_date, list_id, client⟩

/-- `Album` dataclass. -/
structure Album where
  id : String
  title : String
  album_type : String
  photo_count : Int
  video_count : Int
  start_date : Option Datetime
  end_date : Option Datetime
  _client : Option Client
deriving Repr

/-- Embedding of `Album.from_dict` (icloudbridge.py:301-320). -/
def Album.from_dict (data : List (String × JsonVal)) (client : Option Client) :
    Option Album := do
  let start_date ← optDate (jget data "startDate")
  let end_date ← optDate (jget data "endDate")
  let id ← asStr (jget data "id")
  let title ← asStr (jget data "title")
  let album_type ← asStr (jget data "albumType")
  let photo_count ← asInt (jget data "photoCount")
  let video_count ← asInt (jget data "videoCount")
  pure ⟨id, title, album_type, photo_count, video_count, start_date, end_date, client⟩

/-- `Photo` dataclass. -/
structure Photo where
  id : String
  album_id : String
  media_type : String
  creation_date : Datetime
  modification_date : Option Datetime
  width : Int
  height : Int
  is_favorite : Bool
  is_hidden : Bool
  filename : Option String
  file_size : Option Int
  _client : Option Client
deriving Repr

/-- Embedding of `Photo.from_dict` (icloudbridge.py:425-446):
`creationDate` is required; `modificationDate`, `filename` and `fileSize`
are optional. -/
def Photo.from_dict (data : List (String × JsonVal)) (client : Option Client) :
    Option Photo := do
  let cs ← asStr (jget data "creationDate")
  let creation_date ← _parse_iso_date cs
  let modification_date ← optDate (jget data "modificationDate")
  let id ← asStr (jget data "id")
  let album_id ← asStr (jget data "albumId")
  let media_type ← asStr (jget data "mediaType")
  let width ← asInt (jget data "width")
  let height ← asInt (jget data "height")
  let is_favorite ← asBool (jget data "isFavorite")
  let is_hidden ← asBool (jget data "isHidden")
  let filename ← asStrOpt (jget data "filename")
  let file_size ← asIntOpt (jget data "fileSize")
  pure ⟨id, album_id, media_type, creation_date, modification_date, width, height,
    is_favorite, is_hidden, filename, file_size, client⟩

/-- A delegated call into the owning client: the argument list of the
`self._client.<method>(...)` invocation an interactive accessor makes, with
the accessor's defaults resolved. -/
inductive ClientCall where
  | iter_reminders (list_id : String) (include_completed : Bool)
  | get_reminders (list_id : String) (include_completed : Bool)
  | create_reminder (list_id : String) (title : String) (notes : Option String)
      (priority : Option Int) (due_date : Option Datetime)
  | update_reminder (reminder_id : String) (title : Option String) (notes : Option String)
      (priority : Option Int) (due_date : Option Datetime)
  | complete_reminder (reminder_id : String)
  | uncomplete_reminder (reminder_id : String)
  | delete_reminder (reminder_id : String)
  | iter_photos (album_id : String) (sort : String) (media_type : Option String)
  | get_photos (album_id : String) (limit : Nat) (offset : Nat) (sort : String)
      (media_type : Option String)
  | get_thumbnail (photo_id : String) (size : String)
  | get_image (photo_id : String) (wait : Bool) (max_retries : Nat)
  | get_video (photo_id : String)
  | get_live_video (photo_id : String)
deriving Repr

/-- Outcome of an interactive accessor on a domain record, up to the point
where it hands control to the owning client.  Every HTTP request an accessor
can cause is issued inside the delegated client call, so a `runtimeError` or
`valueError` outcome issues no HTTP request at all. -/
inductive AccessorOutcome where
  | runtimeError (msg : String)
  | valueError (msg : String)
  | delegated (call : ClientCall)
deriving Repr

/-- `ReminderList.reminders` property (icloudbridge.py:79-92). -/
def ReminderList.reminders (l : ReminderList) : AccessorOutcome :=
  match l._client with
  | none => .runtimeError "ReminderList not associated with a client"
  | some _ => .delegated (.iter_reminders l.id false)

/-- `ReminderList.all_reminders` property (icloudbridge.py:94-107). -/
def ReminderList.all_reminders (l : ReminderList) : AccessorOutcome :=
  match l._client with
  | none => .runtimeError "ReminderList not associated with a client"
  | some _ => .delegated (.iter_reminders l.id true)

/-- `ReminderList.get_reminders` method (icloudbridge.py:109-124). -/
def ReminderList.get_reminders (l : ReminderList) (include_completed : Bool) :
    AccessorOutcome :=
  match l._client with
  | none => .runtimeError "ReminderList not associated with a client"
  | some _ => .delegated (.get_reminders l.id include_completed)

/-- `ReminderList.create_reminder` method (icloudbridge.py:126-150). -/
def ReminderList.create_reminder (l : ReminderList) (title : String)
    (notes : Option String) (priority : Option Int) (due_date : Option Datetime) :
    AccessorOutcome :=
  match l._client with
  | none => .runtimeError "ReminderList not associated with a client"
  | some _ => .delegated (.create_reminder l.id title notes priority due_date)

/-- `Reminder.save` method (icloudbridge.py:200-228), up to the delegated
`update_reminder` call (the subsequent self-update consumes that call's
response). -/
def Reminder.save (r : Reminder) : AccessorOutcome :=
  match r._client with
  | none => .runtimeError "Reminder not associated with a client"
  | some _ => .delegated (.update_reminder r.id (some r.title) r.notes (some r.priority) r.due_date)

/-- `Reminder.complete` method (icloudbridge.py:230-245). -/
def Reminder.complete (r : Reminder) : AccessorOutcome :=
  match r._client with
  | none => .runtimeError "Reminder not associated with a client"
  | some _ => .delegated (.complete_reminder r.id)

/-- `Reminder.uncomplete` method (icloudbridge.py:247-262). -/
def Reminder.uncomplete (r : Reminder) : AccessorOutcome :=
  match r._client with
  | none => .runtimeError "Reminder not associated with a client"
  | some _ => .delegated (.uncomplete_reminder r.id)

/-- `Reminder.delete` method (icloudbridge.py:264-275). -/
def Reminder.delete (r : Reminder) : AccessorOutcome :=
  match r._client with
  | none => .runtimeError "Reminder not associated with a client"
  | some _ => .delegated (.delete_reminder r.id)

/-- `Album.photos` property (icloudbridge.py:322-335). -/
def Album.photos (a : Album) : AccessorOutcome :=
  match a._client with
  | none => .runtimeError "Album not associated with a client"
  | some _ => .delegated (.iter_photos a.id "album" none)

/-- `Album.videos` property (icloudbridge.py:337-350). -/
def Album.videos (a : Album) : AccessorOutcome :=
  match a._client with
  | none => .runtimeError "Album not associated with a client"
  | some _ => .delegated (.iter_photos a.id "album" (some "video"))

/-- `Album.live_photos` property (icloudbridge.py:352-365). -/
def Album.live_photos (a : Album) : AccessorOutcome :=
  match a._client with
  | none => .runtimeError "Album not associated with a client"
  | some _ => .delegated (.iter_photos a.id "album" (some "live"))

/-- `Album.get_photos` method (icloudbridge.py:367-391). -/
def Album.get_photos (a : Album) (limit offset : Nat) (sort : String)
    (media_type : Option String) : AccessorOutcome :=
  match a._client with
  | none => .runtimeError "Album not associated with a client"
  | some _ => .delegated (.get_photos a.id limit offset sort media_type)

/-- `Photo.thumbnail_small` property (icloudbridge.py:458-471). -/
def Photo.thumbnail_small (p : Photo) : AccessorOutcome :=
  match p._client with
  | none => .runtimeError "Photo not associated with a client"
  | some _ => .delegated (.get_thumbnail p.id "small")

/-- `Photo.thumbnail_medium` property (icloudbridge.py:473-486). -/
def Photo.thumbnail_medium (p : Photo) : AccessorOutcome :=
  match p._client with
  | none => .runtimeError "Photo not associated with a client"
  | some _ => .delegated (.get_thumbnail p.id "medium")

/-- `Photo.image` property (icloudbridge.py:488-501): delegates to
`get_image` with its defaults (`wait=False`, `max_retries=10`). -/
def Photo.image (p : Photo) : AccessorOutcome :=
  match p._client with
  | none => .runtimeError "Photo not associated with a client"
  | some _ => .delegated (.get_image p.id false 10)

/-- `Photo.video` property (icloudbridge.py:503-527): the client check comes
first; only then is the media type dispatched. -/
def Photo.video (p : Photo) : AccessorOutcome :=
  match p._client with
  | none => .runtimeError "Photo not associated with a client"
  | some _ =>
    if p.media_type = "video" then .delegated (.get_video p.id)
    else if p.media_type = "livePhoto" then .delegated (.get_live_video p.id)
    else .valueError ("Cannot get video for media type " ++ p.media_type ++
      ". Only videos and Live Photos have video data.")

/-- `Photo.get_thumbnail` method (icloudbridge.py:529-544). -/
def Photo.get_thumbnail (p : Photo) (size : String) : AccessorOutcome :=
  match p._client with
  | none => .runtimeError "Photo not associated with a client"
  | some _ => .delegated (.get_thumbnail p.id size)

/-- `Photo.get_image` method (icloudbridge.py:546-562). -/
def Photo.get_image (p : Photo) (wait : Bool) (max_retries : Nat) : AccessorOutcome :=
  match p._client with
  | none => .runtimeError "Photo not associated with a client"
  | some _ => .delegated (.get_image p.id wait max_retries)

/-- Result of one HTTP round trip as the client observes it through
`urllib`: a returned response, a raised `HTTPError`, or a raised `URLError`.
`json` carries the JSON decoding of the success body when it has one;
`retryAfter` the parsed `Retry-After` header; `errReason` the `reason`
string when the error body decodes to a JSON object carrying one; `str_e`
models `str(e)` of the raised exception. -/
inductive TransportResult where
  | success (status : Nat) (bytes : List Nat) (json : Option JsonVal)
  | httpError (code : Nat) (retryAfter : Option Nat) (errReason : Option String) (str_e : String)
  | urlError (reason : String)

/-- The error conditions a client call can end in.  `notFound`, `apiError`
and `bridgeError` model the three exception classes `NotFoundError`,
`APIError` and plain `iCloudBridgeError`; `decodeFailure` models a
`json.JSONDecodeError` escaping uncaught from a success body. -/
inductive ClientError where
  | notFound (msg : String)
  | apiError (status_code : Nat) (reason : String)
  | bridgeError (msg : String)
  | decodeFailure
deriving Repr, DecidableEq

/-- Embedding of the response handling of `iCloudBridge._request`
(icloudbridge.py:616-649): 204 maps to no body, other success decodes JSON,
404 maps to `NotFoundError`, any other `HTTPError` to `APIError` with the
server-supplied reason (falling back to `str(e)`), `URLError` to a generic
connection error. -/
def iCloudBridge._request (path : String) (r : TransportResult) :
    Except ClientError (Option JsonVal) :=
  match r with
  | .success status _ json =>
    if status = 204 then .ok none
    else match json with
      | some j => .ok (some j)
      | none => .error .decodeFailure
  | .httpError code _ errReason str_e =>
    if code = 404 then .error (.notFound ("Resource not found: " ++ path))
    else .error (.apiError code (errReason.getD str_e))
  | .urlError reason => .error (.bridgeError ("Connection failed: " ++ reason))

/-- Embedding of `iCloudBridge.health` (icloudbridge.py:653-665).  Its
`except` clause catches `urllib.error.URLError`, and `HTTPError` is a
subclass of `URLError`, so an HTTP error status — 404 included — surfaces
as a generic `iCloudBridgeError`, not as `NotFoundError`. -/
def iCloudBridge.health (r : TransportResult) : Except ClientError JsonVal :=
  match r with
  | .success _ _ json =>
    match json with
    | some j => .ok j
    | none => .error .decodeFailure
  | .httpError _ _ _ str_e => .error (.bridgeError ("Health check failed: " ++ str_e))
  | .urlError reason => .error (.bridgeError ("Health check failed: " ++ reason))

/-- Embedding of the response handling of `iCloudBridge.get_thumbnail`
(icloudbridge.py:1009-1038). -/
def iCloudBridge.get_thumbnail (photo_id : String) (r : TransportResult) :
    Except ClientError (List Nat) :=
  match r with
  | .success _ bytes _ => .ok bytes
  | .httpError code _ _ str_e =>
    if code = 404 then .error (.notFound ("Photo not found: " ++ photo_id))
    else .error (.apiError code str_e)
  | .urlError reason => .error (.bridgeError ("Connection failed: " ++ reason))

/-- Embedding of the response handling of `iCloudBridge.get_video`
(icloudbridge.py:1093-1119). -/
def iCloudBridge.get_video (photo_id : String) (r : TransportResult) :
    Except ClientError (List Nat) :=
  match r with
  | .success _ bytes _ => .ok bytes
  | .httpError code _ _ str_e =>
    if code = 404 then .error (.notFound ("Photo not found: " ++ photo_id))
    else .error (.apiError code str_e)
  | .urlError reason => .error (.bridgeError ("Connection failed: " ++ reason))

/-- Embedding of the response handling of `iCloudBridge.get_live_video`
(icloudbridge.py:1121-1147). -/
def iCloudBridge.get_live_video (photo_id : String) (r : TransportResult) :
    Except ClientError (List Nat) :=
  match r with
  | .success _ bytes _ => .ok bytes
  | .httpError code _ _ str_e =>
    if code = 404 then .error (.notFound ("Photo not found: " ++ photo_id))
    else .error (.apiError code str_e)
  | .urlError reason => .error (.bridgeError ("Connection failed: " ++ reason))

/-- Result of a `get_image` call: the outcome, the number of HTTP requests
issued, and the sequence of `time.sleep` durations performed between
attempts (in seconds, in order). -/
structure FetchResult where
  outcome : Except ClientError (List Nat)
  requests : Nat
  sleeps : List Nat
deriving Repr

/-- The body of the `for attempt in range(...)` loop of
`iCloudBridge.get_image` (icloudbridge.py:1064-1091), by recursion on the
remaining iterations of the range.  `transport` gives the observed result
of the request issued on each attempt.  Exhausting the range falls through
to the final `raise iCloudBridgeError("Image download failed")`. -/
def iCloudBridge.get_image_go (photo_id : String) (transport : Nat → TransportResult)
    (wait : Bool) (max_retries : Nat) : Nat → Nat → FetchResult
  | _, 0 => ⟨.error (.bridgeError "Image download failed"), 0, []⟩
  | attempt, remaining + 1 =>
    match transport attempt with
    | .success _ bytes _ => ⟨.ok bytes, 1, []⟩
    | .urlError reason => ⟨.error (.bridgeError ("Connection failed: " ++ reason)), 1, []⟩
    | .httpError code retryAfter _ str_e =>
      if code = 404 then ⟨.error (.notFound ("Photo not found: " ++ photo_id)), 1, []⟩
      else if code = 202 then
        if wait then
          ⟨.error (.bridgeError "Image download pending despite wait=true"), 1, []⟩
        else
          let retry_after := retryAfter.getD 5
          if attempt < max_retries - 1 then
            let rest := iCloudBridge.get_image_go photo_id transport wait max_retries
              (attempt + 1) remaining
            ⟨rest.outcome, rest.requests + 1, retry_after :: rest.sleeps⟩
          else
            ⟨.error (.bridgeError ("Image download timed out after " ++
              toString max_retries ++ " retries")), 1, []⟩
      else ⟨.error (.apiError code str_e), 1, []⟩

/-- Embedding of `iCloudBridge.get_image` (icloudbridge.py:1040-1091): in
blocking mode (`wait=true`) the range has a single iteration; in polling
mode it has `max_retries` iterations. -/
def iCloudBridge.get_image (photo_id : String) (transport : Nat → TransportResult)
    (wait : Bool) (max_retries : Nat) : FetchResult :=
  iCloudBridge.get_image_go photo_id transport wait max_retries 0
    (if wait then 1 else max_retries)

/-- The loop of `iCloudBridge._iter_photos` (icloudbridge.py:983-1007), by
recursion on a fuel bound.  `gp limit offset` gives the `(photos, total)`
pair `self.get_photos` returns for the page request at that offset.  The
result is the yielded photos in order together with the list of offsets of
the page requests issued; `none` means the fuel bound was hit (the Python
loop would still be running). -/
def iCloudBridge.iter_photos_go {α : Type} (gp : Nat → Nat → List α × Nat) :
    Nat → Nat → Option (List α × List Nat)
  | 0, _ => none
  | fuel + 1, offset =>
    let pr := gp 100 offset
    if offset + 100 ≥ pr.2 then some (pr.1, [offset])
    else
      match iCloudBridge.iter_photos_go gp fuel (offset + 100) with
      | none => none
      | some (ps, offs) => some (pr.1 ++ ps, offset :: offs)

/-- Embedding of `iCloudBridge._iter_photos`: start at offset 0 with page
size 100; one more iteration than the first reported total always suffices
for a server that reports a constant total. -/
def iCloudBridge._iter_photos {α : Type} (gp : Nat → Nat → List α × Nat) :
    Option (List α × List Nat) :=
  iCloudBridge.iter_photos_go gp ((gp 100 0).2 + 1) 0

/-- Upper-case hexadecimal digit. -/
def hexUpper (n : Nat) : Char :=
  if n < 10 then Char.ofNat (48 + n) else Char.ofNat (55 + n)

/-- Characters `urllib.parse.quote` leaves unescaped with the default
`safe="/"`: ASCII letters, digits, `_.-~` and `/`. -/
def quoteSafe (c : Char) : Bool :=
  c.isAlpha || c.isDigit || c == '_' || c == '.' || c == '-' || c == '~' || c == '/'

/-- Percent-encoding of one byte. -/
def percentByte (b : Nat) : List Char :=
  ['%', hexUpper (b / 16), hexUpper (b % 16)]

/-- Model of `urllib.parse.quote` with its default `safe="/"`: UTF-8 encode
and percent-encode every unsafe byte. -/
def urlquote (s : String) : String :=
  ⟨s.data.flatMap (fun c =>
    if quoteSafe c then [c]
    else ((String.utf8EncodeChar c).map (fun b => b.toNat)).flatMap percentByte)⟩

/-- The client operations, with the identifier arguments their paths are
built from (`get_photos` carries its pagination and filter arguments, the
rest take their source defaults where not listed). -/
inductive ApiOp where
  | get_lists
  | get_list (list_id : String)
  | get_reminders (list_id : String) (include_completed : Bool)
  | get_reminder (reminder_id : String)
  | create_reminder (list_id : String)
  | update_reminder (reminder_id : String)
  | delete_reminder (reminder_id : String)
  | complete_reminder (reminder_id : String)
  | uncomplete_reminder (reminder_id : String)
  | get_albums
  | get_album (album_id : String)
  | get_photos (album_id : String) (limit offset : Nat) (sort : String) (media_type : Option String)
  | get_photo (photo_id : String)
  | get_thumbnail (photo_id : String) (size : String)
  | get_image (photo_id : String) (wait : Bool)
  | get_video (photo_id : String)
  | get_live_video (photo_id : String)
  | health

/-- Query string of `iCloudBridge.get_photos` (icloudbridge.py:949-961):
parameters are appended only when they differ from their defaults. -/
def getPhotosQuery (limit offset : Nat) (sort : String) (media_type : Option String) : String :=
  let params :=
    (if limit ≠ 100 then ["limit=" ++ toString limit] else []) ++
    (if offset ≠ 0 then ["offset=" ++ toString offset] else []) ++
    (if sort ≠ "album" then ["sort=" ++ sort] else []) ++
    (match media_type with
      | some t => ["type=" ++ t]
      | none => [])
  if params.isEmpty then "" else "?" ++ String.intercalate "&" params

/-- The request path each operation builds (relative to the api base). -/
def ApiOp.path : ApiOp → String
  | .get_lists => "/lists"
  | .get_list i => "/lists/" ++ urlquote i
  | .get_reminders i ic =>
    "/lists/" ++ urlquote i ++ "/reminders" ++ (if ic then "?includeCompleted=true" else "")
  | .get_reminder i => "/reminders/" ++ urlquote i
  | .create_reminder i => "/lists/" ++ urlquote i ++ "/reminders"
  | .update_reminder i => "/reminders/" ++ urlquote i
  | .delete_reminder i => "/reminders/" ++ urlquote i
  | .complete_reminder i => "/reminders/" ++ urlquote i
  | .uncomplete_reminder i => "/reminders/" ++ urlquote i
  | .get_albums => "/albums"
  | .get_album i => "/albums/" ++ urlquote i
  | .get_photos i limit offset sort mt =>
    "/albums/" ++ urlquote i ++ "/photos" ++ getPhotosQuery limit offset sort mt
  | .get_photo i => "/photos/" ++ urlquote i
  | .get_thumbnail i size => "/photos/" ++ urlquote i ++ "/thumbnail" ++
    (if size ≠ "medium" then "?size=" ++ size else "")
  | .get_image i wait => "/photos/" ++ urlquote i ++ "/image" ++
    (if wait then "?wait=true" else "")
  | .get_video i => "/photos/" ++ urlquote i ++ "/video"
  | .get_live_video i => "/photos/" ++ urlquote i ++ "/live-video"
  | .health => "/health"

/-- The body an operation returns on success: decoded JSON for the
API-object endpoints, raw bytes for the binary endpoints. -/
inductive OpPayload where
  | jsonPayload (v : Option JsonVal)
  | bytesPayload (bs : List Nat)
deriving Repr

/-- How each client operation turns the transport's answer into a result:
the JSON operations all route through `_request`; the binary operations use
their own handlers; `get_image` runs its retry loop against a server that
keeps giving the same answer; `health` uses its own handler. -/
def ApiOp.respond (op : ApiOp) (r : TransportResult) : Except ClientError OpPayload :=
  match op with
  | .get_thumbnail i _ => (iCloudBridge.get_thumbnail i r).map .bytesPayload
  | .get_image i wait =>
    (iCloudBridge.get_image i (fun _ => r) wait 10).outcome.map .bytesPayload
  | .get_video i => (iCloudBridge.get_video i r).map .bytesPayload
  | .get_live_video i => (iCloudBridge.get_live_video i r).map .bytesPayload
  | .health => (iCloudBridge.health r).map (fun j => .jsonPayload (some j))
  | _ => (iCloudBridge._request op.path r).map .jsonPayload

/-- The `YYYY-MM-DDTHH:MM:SS` character rendering shared by the formatter
and the round-trip lemmas. -/
def mkBareChars (y mo d h mi s : Nat) : List Char :=
  pad4 y ++ '-' :: pad2 mo ++ '-' :: pad2 d ++
  'T' :: pad2 h ++ ':' :: pad2 mi ++ ':' :: pad2 s

/-- Six-digit zero-padded rendering of a microsecond value. -/
def pad6 (n : Nat) : List Char :=
  [Nat.digitChar (n / 100000), Nat.digitChar (n / 10000 % 10),
   Nat.digitChar (n / 1000 % 10), Nat.digitChar (n / 100 % 10),
   Nat.digitChar (n / 10 % 10), Nat.digitChar (n % 10)]

theorem digitVal_digitChar : ∀ k, k < 10 → digitVal (Nat.digitChar k) = some k := by
  decide

theorem digitChar_toNat : ∀ k, k < 10 → (Nat.digitChar k).toNat - 48 = k := by
  decide

theorem digitChar_isDigit : ∀ k, k < 10 → (Nat.digitChar k).isDigit = true := by
  decide

theorem num2_pad2 {n : Nat} (h : n < 100) :
    num2 (Nat.digitChar (n / 10)) (Nat.digitChar (n % 10)) = some n := by
  rw [num2, digitVal_digitChar _ (by omega), digitVal_digitChar _ (by omega)]
  show some (n / 10 * 10 + n % 10) = some n
  congr 1
  omega

theorem num4_pad4 {n : Nat} (h : n < 10000) :
    num4 (Nat.digitChar (n / 1000)) (Nat.digitChar (n / 100 % 10))
      (Nat.digitChar (n / 10 % 10)) (Nat.digitChar (n % 10)) = some n := by
  rw [num4, digitVal_digitChar _ (by omega), digitVal_digitChar _ (by omega),
    digitVal_digitChar _ (by omega), digitVal_digitChar _ (by omega)]
  show some (n / 1000 * 1000 + n / 100 % 10 * 100 + n / 10 % 10 * 10 + n % 10) = some n
  congr 1
  omega

theorem fracMicro_pad6 {n : Nat} (h : n < 1000000) : fracMicro (pad6 n) = n := by
  rw [pad6, fracMicro]
  show (List.foldl _ 0 _) * 10 ^ (6 - 6) = n
  simp only [List.foldl, pow_zero, mul_one]
  rw [digitChar_toNat _ (by omega), digitChar_toNat _ (by omega),
    digitChar_toNat _ (by omega), digitChar_toNat _ (by omega),
    digitChar_toNat _ (by omega), digitChar_toNat _ (by omega)]
  omega

theorem digitChar_ne_Z : ∀ k, k < 10 → Nat.digitChar k ≠ 'Z' := by
  decide

theorem flatMap_replaceZchar_of_noZ {cs : List Char} (h : ∀ c ∈ cs, c ≠ 'Z') :
    cs.flatMap replaceZchar = cs := by
  induction cs with
  | nil => rfl
  | cons c cs ih =>
    rw [List.flatMap_cons, replaceZchar, if_neg (h c (List.mem_cons_self c cs)),
      ih (fun x hx => h x (List.mem_cons_of_mem c hx))]
    rfl

theorem pad2_noZ {n : Nat} (h : n < 100) : ∀ c ∈ pad2 n, c ≠ 'Z' := by
  intro c hc
  simp only [pad2, List.mem_cons, List.not_mem_nil, or_false] at hc
  rcases hc with h1 | h1 <;> (subst h1; exact digitChar_ne_Z _ (by omega))

theorem pad4_noZ {n : Nat} (h : n < 10000) : ∀ c ∈ pad4 n, c ≠ 'Z' := by
  intro c hc
  simp only [pad4, List.mem_cons, List.not_mem_nil, or_false] at hc
  rcases hc with h1 | h1 | h1 | h1 <;> (subst h1; exact digitChar_ne_Z _ (by omega))

theorem mkBareChars_noZ {y mo d h mi s : Nat} (hy : y < 10000) (hmo : mo < 100)
    (hd : d < 100) (hh : h < 100) (hmi : mi < 100) (hs : s < 100) :
    ∀ c ∈ mkBareChars y mo d h mi s, c ≠ 'Z' := by
  intro c hc
  rw [mkBareChars] at hc
  rcases List.mem_append.1 hc with h2 | h1
  rotate_left
  · rcases List.mem_cons.1 h1 with rfl | h1
    · decide
    · exact pad2_noZ hs c h1
  rcases List.mem_append.1 h2 with h2 | h1
  rotate_left
  · rcases List.mem_cons.1 h1 with rfl | h1
    · decide
    · exact pad2_noZ hmi c h1
  rcases List.mem_append.1 h2 with h2 | h1
  rotate_left
  · rcases List.mem_cons.1 h1 with rfl | h1
    · decide
    · exact pad2_noZ hh c h1
  rcases List.mem_append.1 h2 with h2 | h1
  rotate_left
  · rcases List.mem_cons.1 h1 with rfl | h1
    · decide
    · exact pad2_noZ hd c h1
  rcases List.mem_append.1 h2 with h2 | h1
  rotate_left
  · rcases List.mem_cons.1 h1 with rfl | h1
    · decide
    · exact pad2_noZ hmo c h1
  exact pad4_noZ hy c h2

theorem fromisoformat_render (y mo d h mi s : Nat) (tail : List Char)
    (hy : y < 10000) (hmo : mo < 100) (hd : d < 100) (hh : h < 100)
    (hmi : mi < 100) (hs : s < 100) :
    fromisoformat ⟨mkBareChars y mo d h mi s ++ tail⟩ =
      (parseFracTz tail).bind (fun p => mkDatetime y mo d h mi s p.1 p.2) := by
  have e1 : mkBareChars y mo d h mi s ++ tail =
      Nat.digitChar (y / 1000) :: Nat.digitChar (y / 100 % 10) ::
      Nat.digitChar (y / 10 % 10) :: Nat.digitChar (y % 10) :: '-' ::
      Nat.digitChar (mo / 10) :: Nat.digitChar (mo % 10) :: '-' ::
      Nat.digitChar (d / 10) :: Nat.digitChar (d % 10) :: 'T' ::
      Nat.digitChar (h / 10) :: Nat.digitChar (h % 10) :: ':' ::
      Nat.digitChar (mi / 10) :: Nat.digitChar (mi % 10) :: ':' ::
      Nat.digitChar (s / 10) :: Nat.digitChar (s % 10) :: tail := by
    simp [mkBareChars, pad4, pad2]
  simp only [fromisoformat, e1, num4_pad4 hy, num2_pad2 hmo, num2_pad2 hd,
    parseTimePart, num2_pad2 hh, num2_pad2 hmi, num2_pad2 hs, Option.bind_some,
    Option.some_bind]
  rfl

theorem parse_of_fromiso {str : String} {dt : Datetime}
    (h : fromisoformat (replaceZ str) = some dt) : _parse_iso_date str = some dt := by
  rw [_parse_iso_date, h]

theorem parseOffsetMag_render {oh om : Nat} (hom : om ≤ 59) (hr : oh * 60 + om < 1440) :
    parseOffsetMag (pad2 oh ++ ':' :: pad2 om) = some (oh * 60 + om) := by
  have hoh : oh < 100 := by omega
  have e : pad2 oh ++ ':' :: pad2 om =
      [Nat.digitChar (oh / 10), Nat.digitChar (oh % 10), ':',
       Nat.digitChar (om / 10), Nat.digitChar (om % 10)] := by
    simp [pad2]
  rw [e, parseOffsetMag, num2_pad2 hoh, num2_pad2 (by omega : om < 100)]
  show (if om ≤ 59 ∧ oh * 60 + om < 1440 then some (oh * 60 + om) else none) = _
  rw [if_pos ⟨hom, hr⟩]

theorem parseTz_plus {oh om : Nat} (hom : om ≤ 59) (hr : oh * 60 + om < 1440) :
    parseTz ('+' :: (pad2 oh ++ ':' :: pad2 om)) = some (some ((oh * 60 + om : Nat) : Int)) := by
  rw [parseTz, parseOffsetMag_render hom hr]
  rfl

theorem parseTz_minus {oh om : Nat} (hom : om ≤ 59) (hr : oh * 60 + om < 1440) :
    parseTz ('-' :: (pad2 oh ++ ':' :: pad2 om)) = some (some (-((oh * 60 + om : Nat) : Int))) := by
  rw [parseTz, parseOffsetMag_render hom hr]
  rfl

theorem parseFracTz_dot {f : Nat} (hf : f < 1000000) {rest : List Char}
    (hrest : rest.head?.all (fun c => !c.isDigit)) :
    parseFracTz ('.' :: (pad6 f ++ rest)) =
      (parseTz rest).map (fun tz => (f, tz)) := by
  have hall : ∀ c ∈ pad6 f, c.isDigit = true := by
    intro c hc
    simp only [pad6, List.mem_cons, List.not_mem_nil, or_false] at hc
    rcases hc with h1 | h1 | h1 | h1 | h1 | h1 <;>
      (subst h1; exact digitChar_isDigit _ (by omega))
  have htw : (pad6 f ++ rest).takeWhile Char.isDigit = pad6 f := by
    rw [List.takeWhile_append_of_pos hall]
    cases rest with
    | nil => simp
    | cons c cs =>
      simp only [Option.all_some, List.head?_cons, Bool.not_eq_true'] at hrest
      rw [List.takeWhile_cons_of_neg (by simp [hrest]), List.append_nil]
  have hdw : (pad6 f ++ rest).dropWhile Char.isDigit = rest := by
    rw [List.dropWhile_append_of_pos hall]
    cases rest with
    | nil => simp
    | cons c cs =>
      simp only [Option.all_some, List.head?_cons, Bool.not_eq_true'] at hrest
      rw [List.dropWhile_cons_of_neg (by simp [hrest])]
  rw [parseFracTz, htw, hdw]
  have hne : (pad6 f).isEmpty = false := by simp [pad6]
  rw [if_neg (by simp [hne]), fracMicro_pad6 hf]

theorem daysInMonth_le (y m : Nat) : daysInMonth y m ≤ 31 := by
  rw [daysInMonth]
  split
  · split <;> omega
  · split <;> omega

/-- The invariant every value produced by the checked `datetime`
constructor satisfies. -/
def ValidDT (dt : Datetime) : Prop :=
  1 ≤ dt.year ∧ dt.year ≤ 9999 ∧ 1 ≤ dt.month ∧ dt.month ≤ 12 ∧ 1 ≤ dt.day ∧
  dt.day ≤ daysInMonth dt.year dt.month ∧ dt.hour ≤ 23 ∧ dt.minute ≤ 59 ∧
  dt.second ≤ 59 ∧ dt.microsecond ≤ 999999 ∧ (dt.tzOffsetMinutes.getD 0).natAbs < 1440

theorem mkDatetime_pos {y mo d h mi s micro : Nat} {tz : Option Int}
    (h1 : 1 ≤ y) (h2 : y ≤ 9999) (h3 : 1 ≤ mo) (h4 : mo ≤ 12) (h5 : 1 ≤ d)
    (h6 : d ≤ daysInMonth y mo) (h7 : h ≤ 23) (h8 : mi ≤ 59) (h9 : s ≤ 59)
    (h10 : micro ≤ 999999) (h11 : (tz.getD 0).natAbs < 1440) :
    mkDatetime y mo d h mi s micro tz = some ⟨y, mo, d, h, mi, s, micro, tz⟩ := by
  rw [mkDatetime, if_pos ⟨h1, h2, h3, h4, h5, h6, h7, h8, h9, h10, h11⟩]

theorem mkDatetime_eq_some {y mo d h mi s micro : Nat} {tz : Option Int} {dt : Datetime}
    (hmk : mkDatetime y mo d h mi s micro tz = some dt) :
    dt = ⟨y, mo, d, h, mi, s, micro, tz⟩ ∧ ValidDT dt := by
  rw [mkDatetime] at hmk
  split at hmk
  case isTrue hcond =>
    cases hmk
    exact ⟨rfl, hcond⟩
  case isFalse hcond => cases hmk

theorem parseTimePart_valid {y mo d : Nat} {cs : List Char} {dt : Datetime}
    (hp : parseTimePart y mo d cs = some dt) : ValidDT dt := by
  match cs with
  | [] => simp [parseTimePart] at hp
  | [c] => simp [parseTimePart] at hp
  | h1 :: h2 :: rest =>
    rw [parseTimePart] at hp
    rcases Option.bind_eq_some.1 hp with ⟨hh, _, hp⟩
    split at hp
    · rcases Option.bind_eq_some.1 hp with ⟨mm, _, hp⟩
      split at hp
      · rcases Option.bind_eq_some.1 hp with ⟨ss, _, hp⟩
        rcases Option.bind_eq_some.1 hp with ⟨mt, _, hp⟩
        exact (mkDatetime_eq_some hp).2
      · rcases Option.bind_eq_some.1 hp with ⟨tz, _, hp⟩
        exact (mkDatetime_eq_some hp).2
    · rcases Option.bind_eq_some.1 hp with ⟨tz, _, hp⟩
      exact (mkDatetime_eq_some hp).2

theorem fromisoformat_valid {str : String} {dt : Datetime}
    (hp : fromisoformat str = some dt) : ValidDT dt := by
  rw [fromisoformat] at hp
  split at hp
  · rcases Option.bind_eq_some.1 hp with ⟨yv, _, hp⟩
    rcases Option.bind_eq_some.1 hp with ⟨mov, _, hp⟩
    rcases Option.bind_eq_some.1 hp with ⟨dv, _, hp⟩
    split at hp
    · exact (mkDatetime_eq_some hp).2
    · exact parseTimePart_valid hp
  · cases hp

theorem strptimeBare_valid {str : String} {dt : Datetime}
    (hp : strptimeBare str = some dt) : ValidDT dt := by
  rw [strptimeBare] at hp
  split at hp
  · rcases Option.bind_eq_some.1 hp with ⟨yv, _, hp⟩
    rcases Option.bind_eq_some.1 hp with ⟨mov, _, hp⟩
    rcases Option.bind_eq_some.1 hp with ⟨dv, _, hp⟩
    rcases Option.bind_eq_some.1 hp with ⟨hv, _, hp⟩
    rcases Option.bind_eq_some.1 hp with ⟨miv, _, hp⟩
    rcases Option.bind_eq_some.1 hp with ⟨sv, _, hp⟩
    exact (mkDatetime_eq_some hp).2
  · cases hp

theorem parse_iso_valid {str : String} {dt : Datetime}
    (hp : _parse_iso_date str = some dt) : ValidDT dt := by
  rw [_parse_iso_date] at hp
  split at hp
  case h_1 dt2 heq =>
    cases hp
    exact fromisoformat_valid heq
  case h_2 heq =>
    split at hp
    · exact strptimeBare_valid hp
    · exact strptimeBare_valid hp

theorem parse_format_of_valid {dt : Datetime} (hv : ValidDT dt) :
    _parse_iso_date (_format_iso_date dt) =
      some ⟨dt.year, dt.month, dt.day, dt.hour, dt.minute, dt.second, 0, some 0⟩ := by
  obtain ⟨h1, h2, h3, h4, h5, h6, h7, h8, h9, h10, h11⟩ := hv
  have hd100 : dt.day < 100 := by
    have := daysInMonth_le dt.year dt.month
    omega
  apply parse_of_fromiso
  have e : _format_iso_date dt =
      ⟨mkBareChars dt.year dt.month dt.day dt.hour dt.minute dt.second ++ ['Z']⟩ := rfl
  rw [e]
  have hz : replaceZ ⟨mkBareChars dt.year dt.month dt.day dt.hour dt.minute dt.second ++ ['Z']⟩ =
      ⟨mkBareChars dt.year dt.month dt.day dt.hour dt.minute dt.second ++ "+00:00".data⟩ := by
    rw [replaceZ]
    congr 1
    rw [List.flatMap_append,
      flatMap_replaceZchar_of_noZ (mkBareChars_noZ (by omega) (by omega) hd100
        (by omega) (by omega) (by omega))]
    rfl
  rw [hz, fromisoformat_render _ _ _ _ _ _ _ (by omega) (by omega) hd100
    (by omega) (by omega) (by omega)]
  rw [show parseFracTz "+00:00".data = some (0, some 0) from by decide]
  rw [Option.some_bind]
  exact mkDatetime_pos h1 h2 h3 h4 h5 h6 h7 h8 h9 (by omega) (by decide)

theorem pad6_noZ {n : Nat} (h : n < 1000000) : ∀ c ∈ pad6 n, c ≠ 'Z' := by
  intro c hc
  simp only [pad6, List.mem_cons, List.not_mem_nil, or_false] at hc
  rcases hc with h1 | h1 | h1 | h1 | h1 | h1 <;>
    (subst h1; exact digitChar_ne_Z _ (by omega))

theorem noZ_append {a b : List Char} (ha : ∀ c ∈ a, c ≠ 'Z') (hb : ∀ c ∈ b, c ≠ 'Z') :
    ∀ c ∈ a ++ b, c ≠ 'Z' := by
  intro c hc
  rcases List.mem_append.1 hc with h | h
  · exact ha c h
  · exact hb c h

theorem replaceZ_of_noZ {l : List Char} (h : ∀ c ∈ l, c ≠ 'Z') :
    replaceZ ⟨l⟩ = ⟨l⟩ := by
  rw [replaceZ]
  exact congrArg String.mk (flatMap_replaceZchar_of_noZ h)

theorem replaceZ_append_Z {l : List Char} (h : ∀ c ∈ l, c ≠ 'Z') :
    replaceZ ⟨l ++ ['Z']⟩ = ⟨l ++ "+00:00".data⟩ := by
  rw [replaceZ]
  refine congrArg String.mk ?_
  rw [List.flatMap_append, flatMap_replaceZchar_of_noZ h]
  rfl

theorem parseFracTz_nil : parseFracTz [] = some (0, none) := rfl

theorem parseFracTz_plusHead (r : List Char) :
    parseFracTz ('+' :: r) = (parseTz ('+' :: r)).map (fun tz => (0, tz)) := rfl

theorem parseFracTz_minusHead (r : List Char) :
    parseFracTz ('-' :: r) = (parseTz ('-' :: r)).map (fun tz => (0, tz)) := rfl

/-- C9: `_parse_iso_date` succeeds on every well-formed input of shape
`YYYY-MM-DDTHH:MM:SS`, with or without a fractional-second part and with or
without a timezone part (`Z` or `+HH:MM`/`-HH:MM`), treats a trailing `Z`
as UTC (offset zero), and maps all of these wire representations into the
single canonical `Datetime` type, with the expected field values. -/
theorem C9_parse_iso_accepts_all_shapes (y mo d h mi s f oh om : Nat)
    (h1 : 1 ≤ y) (h2 : y ≤ 9999) (h3 : 1 ≤ mo) (h4 : mo ≤ 12) (h5 : 1 ≤ d)
    (h6 : d ≤ daysInMonth y mo) (h7 : h ≤ 23) (h8 : mi ≤ 59) (h9 : s ≤ 59)
    (h10 : f ≤ 999999) (h11 : om ≤ 59) (h12 : oh * 60 + om < 1440) :
    _parse_iso_date ⟨mkBareChars y mo d h mi s⟩ =
      some ⟨y, mo, d, h, mi, s, 0, none⟩ ∧
    _parse_iso_date ⟨mkBareChars y mo d h mi s ++ ['Z']⟩ =
      some ⟨y, mo, d, h, mi, s, 0, some 0⟩ ∧
    _parse_iso_date ⟨mkBareChars y mo d h mi s ++ '.' :: pad6 f⟩ =
      some ⟨y, mo, d, h, mi, s, f, none⟩ ∧
    _parse_iso_date ⟨mkBareChars y mo d h mi s ++ '.' :: pad6 f ++ ['Z']⟩ =
      some ⟨y, mo, d, h, mi, s, f, some 0⟩ ∧
    _parse_iso_date ⟨mkBareChars y mo d h mi s ++ '+' :: pad2 oh ++ ':' :: pad2 om⟩ =
      some ⟨y, mo, d, h, mi, s, 0, some ((oh * 60 + om : Nat) : Int)⟩ ∧
    _parse_iso_date ⟨mkBareChars y mo d h mi s ++ '-' :: pad2 oh ++ ':' :: pad2 om⟩ =
      some ⟨y, mo, d, h, mi, s, 0, some (-((oh * 60 + om : Nat) : Int))⟩ ∧
    _parse_iso_date ⟨mkBareChars y mo d h mi s ++ '.' :: pad6 f ++ '+' :: pad2 oh ++ ':' :: pad2 om⟩ =
      some ⟨y, mo, d, h, mi, s, f, some ((oh * 60 + om : Nat) : Int)⟩ := by
  have hd100 : d < 100 := by
    have := daysInMonth_le y mo
    omega
  have hbare := @mkBareChars_noZ y mo d h mi s (by omega) (by omega) hd100
    (by omega) (by omega) (by omega)
  have hoh : oh < 100 := by omega
  have hdotfrac : ∀ c ∈ '.' :: pad6 f, c ≠ 'Z' := by
    intro c hc
    rcases List.mem_cons.1 hc with rfl | hc
    · decide
    · exact pad6_noZ (by omega) c hc
  have hplus : ∀ c ∈ '+' :: pad2 oh, c ≠ 'Z' := by
    intro c hc
    rcases List.mem_cons.1 hc with rfl | hc
    · decide
    · exact pad2_noZ hoh c hc
  have hminus : ∀ c ∈ '-' :: pad2 oh, c ≠ 'Z' := by
    intro c hc
    rcases List.mem_cons.1 hc with rfl | hc
    · decide
    · exact pad2_noZ hoh c hc
  have hcolon : ∀ c ∈ ':' :: pad2 om, c ≠ 'Z' := by
    intro c hc
    rcases List.mem_cons.1 hc with rfl | hc
    · decide
    · exact pad2_noZ (by omega) c hc
  refine ⟨?_, ?_, ?_, ?_, ?_, ?_, ?_⟩
  · -- bare
    apply parse_of_fromiso
    rw [replaceZ_of_noZ hbare, ← List.append_nil (mkBareChars y mo d h mi s),
      fromisoformat_render _ _ _ _ _ _ _ (by omega) (by omega) hd100 (by omega)
        (by omega) (by omega),
      parseFracTz_nil, Option.some_bind]
    exact mkDatetime_pos h1 h2 h3 h4 h5 h6 h7 h8 h9 (by omega) (by decide)
  · -- trailing Z
    apply parse_of_fromiso
    rw [replaceZ_append_Z hbare,
      fromisoformat_render _ _ _ _ _ _ _ (by omega) (by omega) hd100 (by omega)
        (by omega) (by omega),
      show parseFracTz "+00:00".data = some (0, some 0) from by decide,
      Option.some_bind]
    exact mkDatetime_pos h1 h2 h3 h4 h5 h6 h7 h8 h9 (by omega) (by decide)
  · -- fractional part, naive
    apply parse_of_fromiso
    rw [replaceZ_of_noZ (noZ_append hbare hdotfrac),
      fromisoformat_render _ _ _ _ _ _ _ (by omega) (by omega) hd100 (by omega)
        (by omega) (by omega),
      show ('.' :: pad6 f : List Char) = '.' :: (pad6 f ++ []) from by simp,
      parseFracTz_dot (by omega) (by rfl),
      show parseTz ([] : List Char) = some none from rfl]
    rw [show (some (none : Option Int)).map (fun tz => (f, tz)) = some (f, none) from rfl]
    rw [Option.some_bind]
    exact @mkDatetime_pos y mo d h mi s f none h1 h2 h3 h4 h5 h6 h7 h8 h9 (by omega) (by decide)
  · -- fractional part with trailing Z
    apply parse_of_fromiso
    rw [replaceZ_append_Z (noZ_append hbare hdotfrac),
      List.append_assoc,
      fromisoformat_render _ _ _ _ _ _ _ (by omega) (by omega) hd100 (by omega)
        (by omega) (by omega),
      List.cons_append,
      parseFracTz_dot (by omega) (by rfl),
      show parseTz "+00:00".data = some (some 0) from by decide]
    rw [show (some (some (0 : Int))).map (fun tz => (f, tz)) = some (f, some 0) from rfl]
    rw [Option.some_bind]
    exact @mkDatetime_pos y mo d h mi s f (some 0) h1 h2 h3 h4 h5 h6 h7 h8 h9 (by omega) (by decide)
  · -- positive utc offset
    apply parse_of_fromiso
    rw [List.append_assoc, replaceZ_of_noZ (noZ_append hbare (noZ_append hplus hcolon)),
      fromisoformat_render _ _ _ _ _ _ _ (by omega) (by omega) hd100 (by omega)
        (by omega) (by omega),
      List.cons_append, parseFracTz_plusHead, parseTz_plus h11 h12]
    rw [show (some (some ((oh * 60 + om : Nat) : Int))).map (fun tz => ((0 : Nat), tz)) =
      some (0, some ((oh * 60 + om : Nat) : Int)) from rfl]
    rw [Option.some_bind]
    refine @mkDatetime_pos y mo d h mi s 0 (some ((oh * 60 + om : Nat) : Int))
      h1 h2 h3 h4 h5 h6 h7 h8 h9 (by omega) ?_
    simp only [Option.getD_some]
    omega
  · -- negative utc offset
    apply parse_of_fromiso
    rw [List.append_assoc, replaceZ_of_noZ (noZ_append hbare (noZ_append hminus hcolon)),
      fromisoformat_render _ _ _ _ _ _ _ (by omega) (by omega) hd100 (by omega)
        (by omega) (by omega),
      List.cons_append, parseFracTz_minusHead, parseTz_minus h11 h12]
    rw [show (some (some (-((oh * 60 + om : Nat) : Int)))).map (fun tz => ((0 : Nat), tz)) =
      some (0, some (-((oh * 60 + om : Nat) : Int))) from rfl]
    rw [Option.some_bind]
    refine @mkDatetime_pos y mo d h mi s 0 (some (-((oh * 60 + om : Nat) : Int)))
      h1 h2 h3 h4 h5 h6 h7 h8 h9 (by omega) ?_
    simp only [Option.getD_some]
    omega
  · -- fractional part and positive utc offset
    apply parse_of_fromiso
    rw [List.append_assoc, List.append_assoc,
      replaceZ_of_noZ (noZ_append hbare (noZ_append hdotfrac (noZ_append hplus hcolon)))]
    rw [show (('.' :: pad6 f) ++ (('+' :: pad2 oh) ++ (':' :: pad2 om)) : List Char) =
      '.' :: (pad6 f ++ ('+' :: (pad2 oh ++ ':' :: pad2 om))) from by simp]
    rw [fromisoformat_render _ _ _ _ _ _ _ (by omega) (by omega) hd100 (by omega)
        (by omega) (by omega),
      parseFracTz_dot (by omega) (by rfl), parseTz_plus h11 h12]
    rw [show (some (some ((oh * 60 + om : Nat) : Int))).map (fun tz => (f, tz)) =
      some (f, some ((oh * 60 + om : Nat) : Int)) from rfl]
    rw [Option.some_bind]
    refine @mkDatetime_pos y mo d h mi s f (some ((oh * 60 + om : Nat) : Int))
      h1 h2 h3 h4 h5 h6 h7 h8 h9 (by omega) ?_
    simp only [Option.getD_some]
    omega

theorem C9_witness :
    (1 ≤ 2024 ∧ 2024 ≤ 9999 ∧ 1 ≤ 6 ∧ 6 ≤ 12 ∧ 1 ≤ 15 ∧ 15 ≤ daysInMonth 2024 6 ∧
      10 ≤ 23 ∧ 20 ≤ 59 ∧ 30 ≤ 59 ∧ 123456 ≤ 999999 ∧ 30 ≤ 59 ∧ 5 * 60 + 30 < 1440) ∧
    _parse_iso_date "2024-06-15T10:20:30Z" = some ⟨2024, 6, 15, 10, 20, 30, 0, some 0⟩ := by
  refine ⟨by decide, ?_⟩
  have h := (C9_parse_iso_accepts_all_shapes 2024 6 15 10 20 30 123456 5 30
    (by decide) (by decide) (by decide) (by decide) (by decide) (by decide)
    (by decide) (by decide) (by decide) (by decide) (by decide) (by decide)).2.1
  have e : (⟨mkBareChars 2024 6 15 10 20 30 ++ ['Z']⟩ : String) = "2024-06-15T10:20:30Z" := by
    decide
  rw [e] at h
  exact h

/-- C7 (counterexample): the server string `2023-01-01T00:00:00.500000Z` is
accepted and ends in `Z`, but parsing, re-formatting and re-parsing it does
not yield an identical instant: the fractional second is dropped, so the
re-parsed instant differs from the first parse by half a second. -/
theorem C7_counterexample :
    _parse_iso_date "2023-01-01T00:00:00.500000Z" =
      some ⟨2023, 1, 1, 0, 0, 0, 500000, some 0⟩ ∧
    _format_iso_date ⟨2023, 1, 1, 0, 0, 0, 500000, some 0⟩ = "2023-01-01T00:00:00Z" ∧
    _parse_iso_date "2023-01-01T00:00:00Z" = some ⟨2023, 1, 1, 0, 0, 0, 0, some 0⟩ ∧
    Datetime.instantMicros ⟨2023, 1, 1, 0, 0, 0, 500000, some 0⟩ ≠
      Datetime.instantMicros ⟨2023, 1, 1, 0, 0, 0, 0, some 0⟩ :=
  ⟨by decide, by decide, by decide, by decide⟩

/-- C7 (amended): for every server date string accepted by
`_parse_iso_date` whose parse is UTC (as a trailing `Z` produces) and
carries no sub-second part, re-formatting with `_format_iso_date` and
re-parsing yields the identical datetime, hence an identical instant.  With
a nonzero fractional part the round trip instead yields the first parse
truncated to whole seconds (see the counterexample). -/
theorem C7_roundtrip_amended (str : String) (dt : Datetime)
    (hp : _parse_iso_date str = some dt)
    (hz : dt.tzOffsetMinutes = some 0) (hm : dt.microsecond = 0) :
    _parse_iso_date (_format_iso_date dt) = some dt := by
  have hv := parse_iso_valid hp
  have h := parse_format_of_valid hv
  rw [h]
  cases dt with
  | mk y mo d hh mi s micro tz =>
    dsimp only at hz hm
    rw [hz, hm]

theorem C7_witness :
    _parse_iso_date "2024-06-15T10:20:30Z" = some ⟨2024, 6, 15, 10, 20, 30, 0, some 0⟩ ∧
    _parse_iso_date (_format_iso_date ⟨2024, 6, 15, 10, 20, 30, 0, some 0⟩) =
      some ⟨2024, 6, 15, 10, 20, 30, 0, some 0⟩ :=
  ⟨by decide,
    C7_roundtrip_amended "2024-06-15T10:20:30Z" ⟨2024, 6, 15, 10, 20, 30, 0, some 0⟩
      (by decide) rfl rfl⟩

/-- C8 (counterexample): `_format_iso_date` performs no timezone
conversion.  The aware datetime 2023-01-01 12:00 at offset +05:00 (300
minutes) denotes the instant 07:00Z, but it is formatted as
`2023-01-01T12:00:00Z`, which denotes the instant 12:00Z — a different
instant.  So the emitted string does not express the input's instant in
UTC. -/
theorem C8_counterexample :
    _format_iso_date ⟨2023, 1, 1, 12, 0, 0, 0, some 300⟩ = "2023-01-01T12:00:00Z" ∧
    _parse_iso_date "2023-01-01T12:00:00Z" = some ⟨2023, 1, 1, 12, 0, 0, 0, some 0⟩ ∧
    Datetime.instantMicros ⟨2023, 1, 1, 12, 0, 0, 0, some 0⟩ ≠
      Datetime.instantMicros ⟨2023, 1, 1, 12, 0, 0, 0, some 300⟩ :=
  ⟨by decide, by decide, by decide⟩

/-- C8 (amended): for every constructible datetime, `_format_iso_date`
emits `YYYY-MM-DDTHH:MM:SSZ` built verbatim from the input's own calendar
fields — truncating sub-second precision and performing no timezone
conversion — so the emitted string denotes the input's wall-clock fields
read as UTC at second precision.  It denotes the input's actual instant
only when the input's offset is UTC (or the input is naive). -/
theorem C8_format_amended (dt : Datetime) (hv : ValidDT dt) :
    _format_iso_date dt =
      ⟨mkBareChars dt.year dt.month dt.day dt.hour dt.minute dt.second ++ ['Z']⟩ ∧
    _parse_iso_date (_format_iso_date dt) =
      some ⟨dt.year, dt.month, dt.day, dt.hour, dt.minute, dt.second, 0, some 0⟩ :=
  ⟨rfl, parse_format_of_valid hv⟩

theorem C8_witness :
    ValidDT ⟨2024, 6, 15, 10, 20, 30, 999999, some 300⟩ ∧
    _parse_iso_date (_format_iso_date ⟨2024, 6, 15, 10, 20, 30, 999999, some 300⟩) =
      some ⟨2024, 6, 15, 10, 20, 30, 0, some 0⟩ :=
  ⟨by unfold ValidDT; decide,
    (C8_format_amended ⟨2024, 6, 15, 10, 20, 30, 999999, some 300⟩
      (by unfold ValidDT; decide)).2⟩

theorem pending_ne_timeout (n : Nat) :
    ("Image download pending despite wait=true" : String) ≠
      "Image download timed out after " ++ toString n ++ " retries" := by
  intro hstr
  have h2 : ("Image download pending despite wait=true").data.take 16 =
      ("Image download timed out after " ++ toString n ++ " retries").data.take 16 := by
    rw [hstr]
  have e : ("Image download timed out after " ++ toString n ++ " retries").data =
      "Image download timed out after ".data ++ ((toString n).data ++ " retries".data) := by
    show ("Image download timed out after ".data ++ (toString n).data) ++ " retries".data = _
    rw [List.append_assoc]
  rw [e, List.take_append_of_le_length (by decide)] at h2
  exact absurd h2 (by decide)

/-- C1: in polling mode, with a transport that reports pending (as a
202 `HTTPError`) on the first two attempts and success on the third,
`get_image` with `max_retries = 10` returns the asset after exactly 3
requests, sleeping between attempts exactly the per-attempt `Retry-After`
hint the server supplied — 5 when the header is absent — with no
exponential backoff; with hint 1 the two waits total 2 seconds. -/
theorem C1_get_image_polls_until_success (photo_id : String)
    (t : Nat → TransportResult) (asset : List Nat) (ra0 ra1 : Option Nat)
    (e0 e1 : Option String) (s0 s1 : String) (st : Nat) (j : Option JsonVal)
    (h0 : t 0 = .httpError 202 ra0 e0 s0) (h1 : t 1 = .httpError 202 ra1 e1 s1)
    (h2 : t 2 = .success st asset j) :
    iCloudBridge.get_image photo_id t false 10 =
      ⟨.ok asset, 3, [ra0.getD 5, ra1.getD 5]⟩ := by
  have g2 : iCloudBridge.get_image_go photo_id t false 10 2 8 = ⟨.ok asset, 1, []⟩ := by
    show iCloudBridge.get_image_go photo_id t false 10 2 (7 + 1) = _
    rw [iCloudBridge.get_image_go, h2]
  have g1 : iCloudBridge.get_image_go photo_id t false 10 1 9 =
      ⟨.ok asset, 2, [ra1.getD 5]⟩ := by
    show iCloudBridge.get_image_go photo_id t false 10 1 (8 + 1) = _
    rw [iCloudBridge.get_image_go, h1]
    simp only [if_neg (by decide : ¬(202 = 404)), if_pos rfl,
      if_pos (by decide : (1 : Nat) < 10 - 1), Bool.false_eq_true, if_false, g2]
    simp
  have g0 : iCloudBridge.get_image_go photo_id t false 10 0 10 =
      ⟨.ok asset, 3, [ra0.getD 5, ra1.getD 5]⟩ := by
    show iCloudBridge.get_image_go photo_id t false 10 0 (9 + 1) = _
    rw [iCloudBridge.get_image_go, h0]
    simp only [if_neg (by decide : ¬(202 = 404)), if_pos rfl,
      if_pos (by decide : (0 : Nat) < 10 - 1), Bool.false_eq_true, if_false, g1]
    simp
  exact g0

theorem C1_witness :
    (fun n => if n < 2 then TransportResult.httpError 202 (some 1) none "HTTP Error 202: Accepted"
      else .success 200 [7, 7] none) 0 =
        .httpError 202 (some 1) none "HTTP Error 202: Accepted" ∧
    iCloudBridge.get_image "p1"
      (fun n => if n < 2 then .httpError 202 (some 1) none "HTTP Error 202: Accepted"
        else .success 200 [7, 7] none) false 10 = ⟨.ok [7, 7], 3, [1, 1]⟩ ∧
    ([1, 1] : List Nat).sum = 2 :=
  ⟨rfl,
    C1_get_image_polls_until_success "p1" _ [7, 7] (some 1) (some 1) none none
      "HTTP Error 202: Accepted" "HTTP Error 202: Accepted" 200 none rfl rfl rfl,
    rfl⟩

theorem get_image_go_all202 (photo_id : String) (t : Nat → TransportResult)
    (max_retries : Nat)
    (hall : ∀ i, ∃ ra er se, t i = .httpError 202 ra er se) :
    ∀ rem attempt, attempt + rem = max_retries → 1 ≤ rem →
      (iCloudBridge.get_image_go photo_id t false max_retries attempt rem).outcome =
        .error (.bridgeError ("Image download timed out after " ++
          toString max_retries ++ " retries")) ∧
      (iCloudBridge.get_image_go photo_id t false max_retries attempt rem).requests = rem := by
  intro rem
  induction rem with
  | zero => intro attempt _ h; omega
  | succ k ih =>
    intro attempt hsum _
    obtain ⟨ra, er, se, ht⟩ := hall attempt
    by_cases hk : k = 0
    · subst hk
      rw [iCloudBridge.get_image_go, ht]
      simp only [if_neg (by decide : ¬(202 = 404)), if_pos rfl, Bool.false_eq_true,
        if_false, if_neg (by omega : ¬(attempt < max_retries - 1))]
      exact ⟨rfl, rfl⟩
    · have h1k : 1 ≤ k := by omega
      have ih2 := ih (attempt + 1) (by omega) h1k
      have hlt : attempt < max_retries - 1 := by omega
      rw [iCloudBridge.get_image_go, ht]
      simp only [if_neg (by decide : ¬(202 = 404)), if_pos rfl, Bool.false_eq_true,
        if_false, hlt, if_true]
      exact ⟨ih2.1, by rw [ih2.2]⟩

/-- C2: in polling mode, when every attempt reports pending (202),
`get_image` issues exactly `max_retries` requests and fails with the
timeout condition — a plain `iCloudBridgeError` — which is neither
`NotFoundError` nor `APIError`, so a caller can distinguish it from an
`APIError`. -/
theorem C2_get_image_all_pending_times_out (photo_id : String)
    (t : Nat → TransportResult) (max_retries : Nat)
    (hall : ∀ i, ∃ ra er se, t i = .httpError 202 ra er se)
    (hmr : 1 ≤ max_retries) :
    (iCloudBridge.get_image photo_id t false max_retries).requests = max_retries ∧
    (iCloudBridge.get_image photo_id t false max_retries).outcome =
      .error (.bridgeError ("Image download timed out after " ++
        toString max_retries ++ " retries")) ∧
    (∀ m, (iCloudBridge.get_image photo_id t false max_retries).outcome ≠
      .error (.notFound m)) ∧
    (∀ c r, (iCloudBridge.get_image photo_id t false max_retries).outcome ≠
      .error (.apiError c r)) := by
  have h := get_image_go_all202 photo_id t max_retries hall max_retries 0 (by omega) hmr
  have e : iCloudBridge.get_image photo_id t false max_retries =
      iCloudBridge.get_image_go photo_id t false max_retries 0 max_retries := by
    rw [iCloudBridge.get_image]
    simp
  rw [e]
  refine ⟨h.2, h.1, ?_, ?_⟩
  · intro m hq
    rw [h.1] at hq
    simp at hq
  · intro c r hq
    rw [h.1] at hq
    simp at hq

theorem C2_witness :
    (iCloudBridge.get_image "p1" (fun _ => .httpError 202 none none "x") false 3).requests = 3 ∧
    (iCloudBridge.get_image "p1" (fun _ => .httpError 202 none none "x") false 3).outcome =
      .error (.bridgeError "Image download timed out after 3 retries") := by
  have h := C2_get_image_all_pending_times_out "p1"
    (fun _ => .httpError 202 none none "x") 3
    (fun _ => ⟨none, none, "x", rfl⟩) (by decide)
  refine ⟨h.1, ?_⟩
  rw [h.2.1]
  rfl

/-- C3: in blocking mode (`wait=true`), a pending (202) answer raises a
generic `iCloudBridgeError` after exactly one request, with no sleep and no
retry, and the error is not the polling-mode timeout error. -/
theorem C3_get_image_wait_202_is_generic_error (photo_id : String)
    (t : Nat → TransportResult) (ra : Option Nat) (er : Option String) (se : String)
    (max_retries : Nat) (h0 : t 0 = .httpError 202 ra er se) :
    iCloudBridge.get_image photo_id t true max_retries =
      ⟨.error (.bridgeError "Image download pending despite wait=true"), 1, []⟩ ∧
    (∀ n : Nat, (iCloudBridge.get_image photo_id t true max_retries).outcome ≠
      .error (.bridgeError ("Image download timed out after " ++
        toString n ++ " retries"))) := by
  have e : iCloudBridge.get_image photo_id t true max_retries =
      iCloudBridge.get_image_go photo_id t true max_retries 0 1 := by
    rw [iCloudBridge.get_image]
    rfl
  have g : iCloudBridge.get_image_go photo_id t true max_retries 0 1 =
      ⟨.error (.bridgeError "Image download pending despite wait=true"), 1, []⟩ := by
    show iCloudBridge.get_image_go photo_id t true max_retries 0 (0 + 1) = _
    rw [iCloudBridge.get_image_go, h0]
    simp
  refine ⟨e.trans g, ?_⟩
  intro n hq
  rw [e, g] at hq
  simp only [Except.error.injEq, ClientError.bridgeError.injEq] at hq
  exact pending_ne_timeout n hq

theorem C3_witness :
    iCloudBridge.get_image "p1" (fun _ => .httpError 202 (some 1) none "x") true 10 =
      ⟨.error (.bridgeError "Image download pending despite wait=true"), 1, []⟩ :=
  (C3_get_image_wait_202_is_generic_error "p1"
    (fun _ => .httpError 202 (some 1) none "x") (some 1) none "x" 10 rfl).1

theorem iter_photos_total250 (gp : Nat → Nat → List Nat × Nat)
    (htotal : ∀ lim off, (gp lim off).2 = 250) :
    iCloudBridge._iter_photos gp =
      some ((gp 100 0).1 ++ ((gp 100 100).1 ++ (gp 100 200).1), [0, 100, 200]) := by
  have g2 : iCloudBridge.iter_photos_go gp 249 200 = some ((gp 100 200).1, [200]) := by
    show iCloudBridge.iter_photos_go gp (248 + 1) 200 = _
    rw [iCloudBridge.iter_photos_go]
    simp only [htotal]
    rw [if_pos (by omega : 200 + 100 ≥ 250)]
  have g1 : iCloudBridge.iter_photos_go gp 250 100 =
      some ((gp 100 100).1 ++ (gp 100 200).1, [100, 200]) := by
    show iCloudBridge.iter_photos_go gp (249 + 1) 100 = _
    rw [iCloudBridge.iter_photos_go]
    simp only [htotal]
    rw [if_neg (by omega : ¬(100 + 100 ≥ 250))]
    rw [show (100 + 100 : Nat) = 200 from rfl, g2]
  have g0 : iCloudBridge.iter_photos_go gp 251 0 =
      some ((gp 100 0).1 ++ ((gp 100 100).1 ++ (gp 100 200).1), [0, 100, 200]) := by
    show iCloudBridge.iter_photos_go gp (250 + 1) 0 = _
    rw [iCloudBridge.iter_photos_go]
    simp only [htotal]
    rw [if_neg (by omega : ¬(0 + 100 ≥ 250))]
    rw [show (0 + 100 : Nat) = 100 from rfl, g1]
  rw [iCloudBridge._iter_photos, htotal 100 0]
  exact g0

/-- C4: the auto-paginator over a server whose collection has 250 items and
a fixed page size of 100 issues exactly 3 page requests at offsets 0, 100,
200, and the concatenation of the yielded photos is the whole collection in
server order; over a server reporting total 0 it issues exactly 1 request
at offset 0 and yields nothing; and for any batch contents whatsoever with
reported total 250 the request offsets are still exactly 0, 100, 200 —
termination depends only on `offset >= total`, never on batch length. -/
theorem C4_iter_photos_pagination (coll : List Nat) (hlen : coll.length = 250)
    (b : Nat → Nat → List Nat) :
    iCloudBridge._iter_photos (fun lim off => ((coll.drop off).take lim, coll.length)) =
      some (coll, [0, 100, 200]) ∧
    iCloudBridge._iter_photos (fun lim off => ((([] : List Nat).drop off).take lim, 0)) =
      some ([], [0]) ∧
    iCloudBridge._iter_photos (fun lim off => (b lim off, 250)) =
      some (b 100 0 ++ b 100 100 ++ b 100 200, [0, 100, 200]) := by
  refine ⟨?_, ?_, ?_⟩
  · have h := iter_photos_total250
      (fun lim off => ((coll.drop off).take lim, coll.length)) (fun _ _ => hlen)
    rw [h]
    dsimp only
    rw [List.drop_zero]
    have e3 : (coll.drop 200).take 100 = coll.drop 200 :=
      List.take_of_length_le (by rw [List.length_drop, hlen]; omega)
    have e2 : (coll.drop 100).drop 100 = coll.drop 200 := by
      rw [List.drop_drop]
    rw [e3, ← e2, List.take_append_drop, List.take_append_drop]
  · rw [iCloudBridge._iter_photos]
    show iCloudBridge.iter_photos_go
      (fun lim off => ((([] : List Nat).drop off).take lim, 0)) (0 + 1) 0 = _
    rw [iCloudBridge.iter_photos_go]
    simp
  · have h := iter_photos_total250 (fun lim off => (b lim off, 250)) (fun _ _ => rfl)
    rw [h]
    dsimp only
    rw [List.append_assoc]

theorem C4_witness :
    (List.range 250).length = 250 ∧
    iCloudBridge._iter_photos
      (fun lim off => (((List.range 250).drop off).take lim, (List.range 250).length)) =
      some (List.range 250, [0, 100, 200]) :=
  ⟨by simp,
    (C4_iter_photos_pagination (List.range 250) (by simp) (fun _ _ => [])).1⟩

/-- C5 (counterexample): the claim quantifies over every client operation,
but `iCloudBridge.health` catches `urllib.error.URLError` — of which
`HTTPError` is a subclass — so a 404 answer to the health endpoint
surfaces as a generic `iCloudBridgeError`, not as `NotFoundError`. -/
theorem C5_counterexample :
    ApiOp.respond .health (.httpError 404 none none "HTTP Error 404: Not Found") =
      .error (.bridgeError "Health check failed: HTTP Error 404: Not Found") := rfl

theorem respond_404_char (ra : Option Nat) (er : Option String) (se : String) :
    ∀ op : ApiOp,
      (∃ m, op.respond (.httpError 404 ra er se) = .error (.notFound m)) ∨
      op.respond (.httpError 404 ra er se) =
        .error (.bridgeError ("Health check failed: " ++ se)) := by
  intro op
  cases op <;>
    first
    | exact .inr rfl
    | exact .inl ⟨_, rfl⟩
    | (rename_i i w
       cases w <;> exact .inl ⟨_, rfl⟩)

/-- C5 (amended): every client operation other than `health` maps a 404
answer to `NotFoundError`, and no operation — `health` included — ever
maps a 404 to `APIError`.  `health` is the one exception to the first
half: it reports a 404 as a generic `iCloudBridgeError` (see the
counterexample). -/
theorem C5_notfound_amended (op : ApiOp) (ra : Option Nat) (er : Option String)
    (se : String) (hop : op ≠ .health) :
    (∃ m, op.respond (.httpError 404 ra er se) = .error (.notFound m)) ∧
    (∀ op2 : ApiOp, ∀ c rs, op2.respond (.httpError 404 ra er se) ≠
      .error (.apiError c rs)) := by
  constructor
  · cases op <;>
      first
      | exact absurd rfl hop
      | exact ⟨_, rfl⟩
      | (rename_i i w
         cases w <;> exact ⟨_, rfl⟩)
  · intro op2 c rs hq
    rcases respond_404_char ra er se op2 with ⟨m, hm⟩ | hb
    · rw [hm] at hq
      simp at hq
    · rw [hb] at hq
      simp at hq

theorem C5_witness :
    (ApiOp.get_list "abc" ≠ ApiOp.health) ∧
    (∃ m, (ApiOp.get_list "abc").respond (.httpError 404 none none "HTTP Error 404") =
      .error (.notFound m)) :=
  ⟨fun h => ApiOp.noConfusion h,
    (C5_notfound_amended (.get_list "abc") none none "HTTP Error 404"
      (fun h => ApiOp.noConfusion h)).1⟩

theorem bind_some_elim {α β : Type} {x : Option α} {f : α → Option β} {b : β}
    (h : x >>= f = some b) : ∃ a, x = some a ∧ f a = some b := by
  cases x with
  | none => simp at h
  | some a => exact ⟨a, rfl, h⟩

theorem optDate_none : optDate none = some none := rfl

/-- C6: in every `from_dict` mapper, an optional key that is absent from
the JSON object maps to the unset value `none` in the resulting record,
never to a placeholder: `color` on `ReminderList`; `notes`, `dueDate`,
`completionDate` on `Reminder`; `startDate`, `endDate` on `Album`;
`modificationDate`, `filename`, `fileSize` on `Photo`. -/
theorem C6_absent_optional_key_maps_to_none :
    (∀ data client x, jget data "color" = none →
      ReminderList.from_dict data client = some x → x.color = none) ∧
    (∀ data client x, jget data "notes" = none →
      Reminder.from_dict data client = some x → x.notes = none) ∧
    (∀ data client x, jget data "dueDate" = none →
      Reminder.from_dict data client = some x → x.due_date = none) ∧
    (∀ data client x, jget data "completionDate" = none →
      Reminder.from_dict data client = some x → x.completion_date = none) ∧
    (∀ data client x, jget data "startDate" = none →
      Album.from_dict data client = some x → x.start_date = none) ∧
    (∀ data client x, jget data "endDate" = none →
      Album.from_dict data client = some x → x.end_date = none) ∧
    (∀ data client x, jget data "modificationDate" = none →
      Photo.from_dict data client = some x → x.modification_date = none) ∧
    (∀ data client x, jget data "filename" = none →
      Photo.from_dict data client = some x → x.filename = none) ∧
    (∀ data client x, jget data "fileSize" = none →
      Photo.from_dict data client = some x → x.file_size = none) := by
  refine ⟨?_, ?_, ?_, ?_, ?_, ?_, ?_, ?_, ?_⟩
  · intro data client x hkey hx
    rw [ReminderList.from_dict, hkey] at hx
    rcases bind_some_elim hx with ⟨v1, -, hx⟩
    rcases bind_some_elim hx with ⟨v2, -, hx⟩
    rcases bind_some_elim hx with ⟨v3, hv, hx⟩
    rcases bind_some_elim hx with ⟨v4, -, hx⟩
    rw [show asStrOpt none = some none from rfl] at hv
    cases hv
    cases hx
    rfl
  · intro data client x hkey hx
    rw [Reminder.from_dict, hkey] at hx
    rcases bind_some_elim hx with ⟨v1, -, hx⟩
    rcases bind_some_elim hx with ⟨v2, -, hx⟩
    rcases bind_some_elim hx with ⟨v3, -, hx⟩
    rcases bind_some_elim hx with ⟨v4, -, hx⟩
    rcases bind_some_elim hx with ⟨v5, hv, hx⟩
    rcases bind_some_elim hx with ⟨v6, -, hx⟩
    rcases bind_some_elim hx with ⟨v7, -, hx⟩
    rcases bind_some_elim hx with ⟨v8, -, hx⟩
    rw [show asStrOpt none = some none from rfl] at hv
    cases hv
    cases hx
    rfl
  · intro data client x hkey hx
    rw [Reminder.from_dict, hkey] at hx
    rcases bind_some_elim hx with ⟨v1, hv, hx⟩
    rcases bind_some_elim hx with ⟨v2, -, hx⟩
    rcases bind_some_elim hx with ⟨v3, -, hx⟩
    rcases bind_some_elim hx with ⟨v4, -, hx⟩
    rcases bind_some_elim hx with ⟨v5, -, hx⟩
    rcases bind_some_elim hx with ⟨v6, -, hx⟩
    rcases bind_some_elim hx with ⟨v7, -, hx⟩
    rcases bind_some_elim hx with ⟨v8, -, hx⟩
    rw [optDate_none] at hv
    cases hv
    cases hx
    rfl
  · intro data client x hkey hx
    rw [Reminder.from_dict, hkey] at hx
    rcases bind_some_elim hx with ⟨v1, -, hx⟩
    rcases bind_some_elim hx with ⟨v2, hv, hx⟩
    rcases bind_some_elim hx with ⟨v3, -, hx⟩
    rcases bind_some_elim hx with ⟨v4, -, hx⟩
    rcases bind_some_elim hx with ⟨v5, -, hx⟩
    rcases bind_some_elim hx with ⟨v6, -, hx⟩
    rcases bind_some_elim hx with ⟨v7, -, hx⟩
    rcases bind_some_elim hx with ⟨v8, -, hx⟩
    rw [optDate_none] at hv
    cases hv
    cases hx
    rfl
  · intro data client x hkey hx
    rw [Album.from_dict, hkey] at hx
    rcases bind_some_elim hx with ⟨v1, hv, hx⟩
    rcases bind_some_elim hx with ⟨v2, -, hx⟩
    rcases bind_some_elim hx with ⟨v3, -, hx⟩
    rcases bind_some_elim hx with ⟨v4, -, hx⟩
    rcases bind_some_elim hx with ⟨v5, -, hx⟩
    rcases bind_some_elim hx with ⟨v6, -, hx⟩
    rcases bind_some_elim hx with ⟨v7, -, hx⟩
    rw [optDate_none] at hv
    cases hv
    cases hx
    rfl
  · intro data client x hkey hx
    rw [Album.from_dict, hkey] at hx
    rcases bind_some_elim hx with ⟨v1, -, hx⟩
    rcases bind_some_elim hx with ⟨v2, hv, hx⟩
    rcases bind_some_elim hx with ⟨v3, -, hx⟩
    rcases bind_some_elim hx with ⟨v4, -, hx⟩
    rcases bind_some_elim hx with ⟨v5, -, hx⟩
    rcases bind_some_elim hx with ⟨v6, -, hx⟩
    rcases bind_some_elim hx with ⟨v7, -, hx⟩
    rw [optDate_none] at hv
    cases hv
    cases hx
    rfl
  · intro data client x hkey hx
    rw [Photo.from_dict, hkey] at hx
    rcases bind_some_elim hx with ⟨v1, -, hx⟩
    rcases bind_some_elim hx with ⟨v2, -, hx⟩
    rcases bind_some_elim hx with ⟨v3, hv, hx⟩
    rcases bind_some_elim hx with ⟨v4, -, hx⟩
    rcases bind_some_elim hx with ⟨v5, -, hx⟩
    rcases bind_some_elim hx with ⟨v6, -, hx⟩
    rcases bind_some_elim hx with ⟨v7, -, hx⟩
    rcases bind_some_elim hx with ⟨v8, -, hx⟩
    rcases bind_some_elim hx with ⟨v9, -, hx⟩
    rcases bind_some_elim hx with ⟨v10, -, hx⟩
    rcases bind_some_elim hx with ⟨v11, -, hx⟩
    rcases bind_some_elim hx with ⟨v12, -, hx⟩
    rw [optDate_none] at hv
    cases hv
    cases hx
    rfl
  · intro data client x hkey hx
    rw [Photo.from_dict, hkey] at hx
    rcases bind_some_elim hx with ⟨v1, -, hx⟩
    rcases bind_some_elim hx with ⟨v2, -, hx⟩
    rcases bind_some_elim hx with ⟨v3, -, hx⟩
    rcases bind_some_elim hx with ⟨v4, -, hx⟩
    rcases bind_some_elim hx with ⟨v5, -, hx⟩
    rcases bind_some_elim hx with ⟨v6, -, hx⟩
    rcases bind_some_elim hx with ⟨v7, -, hx⟩
    rcases bind_some_elim hx with ⟨v8, -, hx⟩
    rcases bind_some_elim hx with ⟨v9, -, hx⟩
    rcases bind_some_elim hx with ⟨v10, -, hx⟩
    rcases bind_some_elim hx with ⟨v11, hv, hx⟩
    rcases bind_some_elim hx with ⟨v12, -, hx⟩
    rw [show asStrOpt none = some none from rfl] at hv
    cases hv
    cases hx
    rfl
  · intro data client x hkey hx
    rw [Photo.from_dict, hkey] at hx
    rcases bind_some_elim hx with ⟨v1, -, hx⟩
    rcases bind_some_elim hx with ⟨v2, -, hx⟩
    rcases bind_some_elim hx with ⟨v3, -, hx⟩
    rcases bind_some_elim hx with ⟨v4, -, hx⟩
    rcases bind_some_elim hx with ⟨v5, -, hx⟩
    rcases bind_some_elim hx with ⟨v6, -, hx⟩
    rcases bind_some_elim hx with ⟨v7, -, hx⟩
    rcases bind_some_elim hx with ⟨v8, -, hx⟩
    rcases bind_some_elim hx with ⟨v9, -, hx⟩
    rcases bind_some_elim hx with ⟨v10, -, hx⟩
    rcases bind_some_elim hx with ⟨v11, -, hx⟩
    rcases bind_some_elim hx with ⟨v12, hv, hx⟩
    rw [show asIntOpt none = some none from rfl] at hv
    cases hv
    cases hx
    rfl

theorem C6_witness :
    jget [("id", JsonVal.str "r1"), ("title", JsonVal.str "T"),
        ("isCompleted", JsonVal.bool false), ("priority", JsonVal.num 0),
        ("listId", JsonVal.str "l1")] "notes" = none ∧
    Reminder.from_dict [("id", JsonVal.str "r1"), ("title", JsonVal.str "T"),
        ("isCompleted", JsonVal.bool false), ("priority", JsonVal.num 0),
        ("listId", JsonVal.str "l1")] none =
      some ⟨"r1", "T", none, false, 0, none, none, "l1", none⟩ ∧
    (⟨"r1", "T", none, false, 0, none, none, "l1", none⟩ : Reminder).notes = none := by
  refine ⟨rfl, rfl, ?_⟩
  exact C6_absent_optional_key_maps_to_none.2.1
    [("id", JsonVal.str "r1"), ("title", JsonVal.str "T"),
      ("isCompleted", JsonVal.bool false), ("priority", JsonVal.num 0),
      ("listId", JsonVal.str "l1")] none
    ⟨"r1", "T", none, false, 0, none, none, "l1", none⟩ rfl rfl

/-- C10: every interactive accessor on a domain record whose `_client`
field is `none` — the default for records not built by a client — raises
`RuntimeError` and issues no HTTP request (every request an accessor can
cause lives inside the delegated client call, and no call is delegated). -/
theorem C10_accessors_require_client
    (l : ReminderList) (r : Reminder) (a : Album) (p : Photo)
    (hl : l._client = none) (hr : r._client = none)
    (ha : a._client = none) (hp : p._client = none)
    (ic : Bool) (title : String) (notes : Option String) (priority : Option Int)
    (due : Option Datetime) (limit offset : Nat) (sort : String)
    (mt : Option String) (size : String) (w : Bool) (mr : Nat) :
    l.reminders = .runtimeError "ReminderList not associated with a client" ∧
    l.all_reminders = .runtimeError "ReminderList not associated with a client" ∧
    l.get_reminders ic = .runtimeError "ReminderList not associated with a client" ∧
    l.create_reminder title notes priority due =
      .runtimeError "ReminderList not associated with a client" ∧
    r.save = .runtimeError "Reminder not associated with a client" ∧
    r.complete = .runtimeError "Reminder not associated with a client" ∧
    r.uncomplete = .runtimeError "Reminder not associated with a client" ∧
    r.delete = .runtimeError "Reminder not associated with a client" ∧
    a.photos = .runtimeError "Album not associated with a client" ∧
    a.videos = .runtimeError "Album not associated with a client" ∧
    a.live_photos = .runtimeError "Album not associated with a client" ∧
    a.get_photos limit offset sort mt =
      .runtimeError "Album not associated with a client" ∧
    p.thumbnail_small = .runtimeError "Photo not associated with a client" ∧
    p.thumbnail_medium = .runtimeError "Photo not associated with a client" ∧
    p.image = .runtimeError "Photo not associated with a client" ∧
    p.video = .runtimeError "Photo not associated with a client" ∧
    p.get_thumbnail size = .runtimeError "Photo not associated with a client" ∧
    p.get_image w mr = .runtimeError "Photo not associated with a client" := by
  simp only [ReminderList.reminders, ReminderList.all_reminders,
    ReminderList.get_reminders, ReminderList.create_reminder, Reminder.save,
    Reminder.complete, Reminder.uncomplete, Reminder.delete, Album.photos,
    Album.videos, Album.live_photos, Album.get_photos, Photo.thumbnail_small,
    Photo.thumbnail_medium, Photo.image, Photo.video, Photo.get_thumbnail,
    Photo.get_image, hl, hr, ha, hp]
  simp

theorem C10_witness :
    (⟨"l1", "T", none, 0, none⟩ : ReminderList)._client = none ∧
    ReminderList.reminders ⟨"l1", "T", none, 0, none⟩ =
      .runtimeError "ReminderList not associated with a client" :=
  ⟨rfl,
    (C10_accessors_require_client ⟨"l1", "T", none, 0, none⟩
      ⟨"r1", "T", none, false, 0, none, none, "l1", none⟩
      ⟨"a1", "T", "user", 0, 0, none, none, none⟩
      ⟨"p1", "a1", "photo", ⟨2024, 1, 1, 0, 0, 0, 0, none⟩, none, 0, 0, false, false,
        none, none, none⟩
      rfl rfl rfl rfl false "t" none none none 100 0 "album" none "medium" false 10).1⟩
